import Mathlib

/-!
# Adaquote: route handlers, session gates and store configuration

A shallow embedding of the request handlers of the application:

* `express-generator-auth/services/auth/auth-helpers.js`: `loginRedirect`,
  `loginRequired`, `createNewUser`;
* `express-generator-auth/routes/authRoutes.js`: the handlers registered on
  `authRouter`;
* `controllers/quotesController.js`: the six operations of `controller`;
* `routes/quotes.js`: the handler chains registered on `quoteRoutes`, whose gate
  comes from `services/auth/authHelpers`, a module that is not among the sources;
* `express-generator-auth/db/config.js`: the exported handle `db`.

A handler is a function on a request context `Ctx`. Every call a handler makes on
a collaborator that lives outside these files (the response object, `next`,
`req.login`, `req.logout`, the quote and user stores) is appended to `Ctx.log` as
an `Event`, in program order. How a collaborator answers (how a store promise
settles, which salt the generator returns, what the hash function computes, what
error `req.login` reports) is an input, gathered in `World`.

The log holds the calls made, whether or not they return. The response object
keeps the flag `Ctx.sent`: `res.redirect` and `res.json` send the response, and
throw when a response was already sent. An exception thrown inside a `.then`
callback is delivered to the `.catch` callback of the chain; an exception that
nothing catches is kept in `Ctx.thrown`.
-/

namespace Adaquote

/-- A JavaScript value, as far as the handlers pass values around. -/
inductive JsVal where
  | undefined : JsVal
  | null : JsVal
  | bool (b : Bool) : JsVal
  | num (n : Int) : JsVal
  | str (s : String) : JsVal
  | obj (fields : List (String × JsVal)) : JsVal

/-- JavaScript truthiness, the test performed by `if (v)`. -/
def truthy : JsVal → Bool
  | .undefined => false
  | .null => false
  | .bool b => b
  | .num n => n != 0
  | .str s => s != ""
  | .obj _ => true

/-- The object literal handed to `Quote.create` and `Quote.update`. -/
structure QuoteFields where
  content : JsVal
  author : JsVal
  genre_id : JsVal

/-- The object literal handed to `User.create`. -/
structure UserFields where
  username : JsVal
  first_name : JsVal
  last_name : JsVal
  email : JsVal
  password : JsVal

/-- A call made on a collaborator. -/
inductive Event where
  | redirect (url : String) : Event
  | render (view : String) (locals : List (String × JsVal)) : Event
  | status (code : Nat) : Event
  | json (body : JsVal) : Event
  | next (err : Option JsVal) : Event
  | login (user : JsVal) : Event
  | logout : Event
  | quoteFindAll : Event
  | quoteFindById (id : JsVal) : Event
  | quoteCreate (q : QuoteFields) : Event
  | quoteUpdate (q : QuoteFields) (id : JsVal) : Event
  | quoteDestroy (id : JsVal) : Event
  | userCreate (u : UserFields) : Event

/-- How the promise returned by a store call settles. -/
inductive Settled where
  | resolved (value : JsVal) : Settled
  | rejected (err : JsVal) : Settled
  | pending : Settled

/-- What `req.login(user, cb)` does with its callback. -/
inductive LoginCb where
  | invoked (err : JsVal) : LoginCb
  | never : LoginCb

/-- The collaborators outside the handler files: the hashing library, the two
stores and the session middleware. -/
structure World where
  genSaltSync : Nat → String × Nat
  hashSync : JsVal → String → Except JsVal String
  quoteFindAll : Settled
  quoteFindById : JsVal → Settled
  quoteCreate : QuoteFields → Settled
  quoteUpdate : QuoteFields → JsVal → Settled
  quoteDestroy : JsVal → Settled
  userCreate : UserFields → Settled
  login : JsVal → LoginCb

/-- The state of one request: `req.user`, `req.body` (property lookup),
`req.params.id`, the state of the salt generator, the calls made so far, whether
the response was sent (`res.headersSent`), and the exception that nothing caught. -/
structure Ctx where
  user : JsVal
  body : String → JsVal
  paramsId : JsVal
  entropy : Nat
  log : List Event
  sent : Bool
  thrown : Option JsVal

/-- Records one collaborator call. -/
def emit (e : Event) (c : Ctx) : Ctx :=
  { c with log := c.log ++ [e] }

/-- The continuation `next` of a handler: `next()` is `next none`. -/
abbrev Next := Option JsVal → Ctx → Ctx

/-- A route handler `(req, res, next)`. -/
abbrev Handler := World → Next → Ctx → Ctx

/-- The result of running a block of handler code: it ran to its end, or it threw. -/
inductive Run where
  | done (c : Ctx) : Run
  | threw (err : JsVal) (c : Ctx) : Run

/-- The state left by a block whose exception nothing catches. -/
def Run.finish : Run → Ctx
  | .done c => c
  | .threw err c => { c with thrown := some err }

/-- Sequencing of two statements: the second runs only when the first did not
throw. -/
def Run.andThen (r : Run) (k : Ctx → Ctx) : Ctx :=
  match r with
  | .done c => k c
  | .threw err c => { c with thrown := some err }

/-- The error raised when a header is set on a response that was already sent. -/
def headersSentError : JsVal :=
  .obj [("code", .str "ERR_HTTP_HEADERS_SENT")]

/-- The call `res.status(code)`: sets the status code and returns the response. -/
def resStatus (code : Nat) (c : Ctx) : Ctx :=
  emit (.status code) c

/-- A call that sets headers and sends the response: the call is recorded; on a
response already sent it throws, otherwise the response is sent. -/
def resSend (e : Event) (c : Ctx) : Run :=
  if c.sent then .threw headersSentError (emit e c)
  else .done { emit e c with sent := true }

/-- The call `res.redirect(url)`. -/
def resRedirect (url : String) (c : Ctx) : Run :=
  resSend (.redirect url) c

/-- The call `res.json(body)`. -/
def resJson (body : JsVal) (c : Ctx) : Run :=
  resSend (.json body) c

/-- The call `res.render(view, locals)`: the call is recorded and the rendered view
is sent. A failure of the rendering or of the sending is handed to the router by
the framework and is not thrown to the caller. -/
def resRender (view : String) (locals : List (String × JsVal)) (c : Ctx) : Ctx :=
  { emit (.render view locals) c with sent := true }

/-- The chain `promise.then(f).catch(g)` for a store promise: `f` runs when the
promise resolves, `g` runs when the promise rejects or when `f` throws. -/
def thenCatch (p : Settled) (f g : JsVal → Ctx → Run) (c : Ctx) : Ctx :=
  match p with
  | .resolved v =>
    match f v c with
    | .done c1 => c1
    | .threw err c1 => (g err c1).finish
  | .rejected e => (g e c).finish
  | .pending => c

/-! ## express-generator-auth/services/auth/auth-helpers.js -/

/-- Source: `if (req.user) res.redirect('/user'); return next();`. -/
def loginRedirect : Handler := fun _ next c =>
  (if truthy c.user then resRedirect "/user" c else .done c).andThen (next none)

/-- Source: `if (!req.user) res.redirect('/auth/login'); return next();`. -/
def loginRequired : Handler := fun _ next c =>
  (if !truthy c.user then resRedirect "/auth/login" c else .done c).andThen (next none)

/-- Source: `createNewUser(req, res)`. Returns the promise of `User.create`, or the
exception thrown by `hashSync`. -/
def createNewUser (W : World) (c : Ctx) : Except JsVal (Settled × Ctx) :=
  let g := W.genSaltSync c.entropy
  let salt := g.1
  match W.hashSync (c.body "password") salt with
  | .error e => .error e
  | .ok hash =>
    let u : UserFields :=
      { username := c.body "username"
        first_name := c.body "first_name"
        last_name := c.body "last_name"
        email := c.body "email"
        password := .str hash }
    .ok (W.userCreate u, emit (.userCreate u) { c with entropy := g.2 })

/-! ## The session middleware -/

/-- Modelled from the spec: `req.logout` belongs to the session middleware, which is
not part of these sources; it destroys the session, clearing the session user. -/
def reqLogout (c : Ctx) : Ctx :=
  emit .logout { c with user := .null }

/-- Modelled from the spec: `req.login` belongs to the session middleware, which is
not part of these sources; when it reports no error a session is established for
the given user. The callback `cb` receives the reported error. The middleware
calls it once the session is stored, outside the promise chain of the caller: an
exception thrown by `cb` does not reach the caller. -/
def reqLogin (W : World) (user : JsVal) (cb : JsVal → Ctx → Run) (c : Ctx) : Ctx :=
  let c1 := emit (.login user) c
  match W.login user with
  | .invoked err => (cb err (if truthy err then c1 else { c1 with user := user })).finish
  | .never => c1

/-- The two session states of the spec. -/
inductive SessionState where
  | Anonymous : SessionState
  | Authenticated : SessionState
  deriving DecidableEq

/-- The session state of a request: authenticated when a user is attached. -/
def sessionState (c : Ctx) : SessionState :=
  if truthy c.user then .Authenticated else .Anonymous

/-! ## express-generator-auth/routes/authRoutes.js -/

/-- Source: `(req, res) => res.render('auth/login')`. -/
def authRouter.loginForm : Handler := fun _ _ c =>
  resRender "auth/login" [] c

/-- Source: `(req, res) => res.render('auth/register')`. -/
def authRouter.registerForm : Handler := fun _ _ c =>
  resRender "auth/register" [] c

/-- Source: the handler of `authRouter.post('/register', ...)`. An exception of
`createNewUser` is thrown before the promise chain exists and leaves the handler. -/
def authRouter.postRegister : Handler := fun W next c =>
  match createNewUser W c with
  | .error e => { c with thrown := some e }
  | .ok (p, c1) =>
    thenCatch p
      (fun user c2 =>
        .done (reqLogin W user
          (fun err c3 =>
            if truthy err then .done (next (some err) c3)
            else resRedirect "/user" c3)
          c2))
      (fun _ c2 =>
        resJson (.obj [("status", .str "error")]) (resStatus 500 c2))
      c1

/-- Source: `(req, res) => { req.logout(); res.redirect('/'); }`. -/
def authRouter.getLogout : Handler := fun _ _ c =>
  (resRedirect "/" (reqLogout c)).finish

/-! ## controllers/quotesController.js -/

/-- Source: `.catch(err => { res.status(400).json(err); })`. -/
def controller.onError (err : JsVal) (c : Ctx) : Run :=
  resJson err (resStatus 400 c)

/-- Source: `controller.index`. -/
def controller.index : Handler := fun W _ c =>
  thenCatch W.quoteFindAll
    (fun quotes c1 =>
      .done (resRender "quotes/quotes-index"
        [("documentTitle", .str "Adaquote!"), ("quotesData", quotes)] c1))
    controller.onError
    (emit .quoteFindAll c)

/-- Source: `controller.show`. -/
def controller.show : Handler := fun W _ c =>
  thenCatch (W.quoteFindById c.paramsId)
    (fun quote c1 =>
      .done (resRender "quotes/quotes-single"
        [("documentTitle", .str "Adaquote!"), ("quote", quote)] c1))
    controller.onError
    (emit (.quoteFindById c.paramsId) c)

/-- Source: `controller.create`. -/
def controller.create : Handler := fun W _ c =>
  let q : QuoteFields :=
    { content := c.body "content", author := c.body "author", genre_id := c.body "genre_id" }
  thenCatch (W.quoteCreate q)
    (fun _ c1 => resRedirect "/quotes" c1)
    controller.onError
    (emit (.quoteCreate q) c)

/-- Source: `controller.edit`. -/
def controller.edit : Handler := fun W _ c =>
  thenCatch (W.quoteFindById c.paramsId)
    (fun quote c1 =>
      .done (resRender "quotes/quotes-edit"
        [("documentTitle", .str "Adaquote!"), ("quote", quote), ("id", c1.paramsId)] c1))
    controller.onError
    (emit (.quoteFindById c.paramsId) c)

/-- Source: `controller.update`. -/
def controller.update : Handler := fun W _ c =>
  let q : QuoteFields :=
    { content := c.body "content", author := c.body "author", genre_id := c.body "genre_id" }
  thenCatch (W.quoteUpdate q c.paramsId)
    (fun _ c1 => resRedirect "/quotes" c1)
    controller.onError
    (emit (.quoteUpdate q c.paramsId) c)

/-- Source: `controller.destroy`. -/
def controller.destroy : Handler := fun W _ c =>
  thenCatch (W.quoteDestroy c.paramsId)
    (fun _ c1 => resRedirect "/quotes" c1)
    controller.onError
    (emit (.quoteDestroy c.paramsId) c)

/-! ## Dispatch of a handler chain -/

/-- Runs the handlers registered for one route, in order. Each handler receives as
`next` the continuation that records the call and, when called without an error,
runs the rest of the chain. -/
def dispatch (W : World) : List Handler → Ctx → Ctx
  | [], c => c
  | h :: rest, c =>
    h W (fun err c1 =>
      match err with
      | none => dispatch W rest (emit (.next none) c1)
      | some e => emit (.next (some e)) c1) c

/-! ## services/auth/authHelpers (imported by routes/quotes.js) -/

/-- Modelled from the spec: `loginRequired` of `services/auth/authHelpers`, the
module from which `routes/quotes.js` imports its gate, is not among the sources.
Spec 4.2, requireLogin: if no authenticated user is attached to the current
request, redirect to the login page; otherwise continue to the next handler; the
redirect short-circuits the handler chain. Spec 8: the login page is /auth/login. -/
def authHelpers.loginRequired : Handler := fun _ next c =>
  if !truthy c.user then (resRedirect "/auth/login" c).finish
  else next none c

/-! ## routes/quotes.js -/

/-- Source: the second handler of `quoteRoutes.get('/add', ...)`. -/
def quoteRoutes.addForm : Handler := fun _ _ c =>
  resRender "quotes/quotes-add" [("documentTitle", .str "Adaquote!")] c

/-- Source: `quoteRoutes.get('/add', authHelpers.loginRequired, ...)`. -/
def quoteRoutes.getAdd : List Handler :=
  [authHelpers.loginRequired, quoteRoutes.addForm]

/-- Source: `quoteRoutes.post('/', authHelpers.loginRequired, controller.create)`. -/
def quoteRoutes.postQuote : List Handler :=
  [authHelpers.loginRequired, controller.create]

/-- Source: `quoteRoutes.put('/:id', authHelpers.loginRequired, controller.update)`. -/
def quoteRoutes.putQuote : List Handler :=
  [authHelpers.loginRequired, controller.update]

/-- Source: `quoteRoutes.delete('/:id', authHelpers.loginRequired, controller.destroy)`. -/
def quoteRoutes.deleteQuote : List Handler :=
  [authHelpers.loginRequired, controller.destroy]

/-! ## express-generator-auth/routes/authRoutes.js: the gated chains -/

/-- Source: `authRouter.get('/login', authHelpers.loginRedirect, ...)`. -/
def authRouter.getLogin : List Handler := [loginRedirect, authRouter.loginForm]

/-- Source: `authRouter.get('/register', authHelpers.loginRedirect, ...)`. -/
def authRouter.getRegister : List Handler := [loginRedirect, authRouter.registerForm]

/-! ## express-generator-auth/db/config.js -/

/-- The argument of `pgp(...)`. -/
structure DbParams where
  database : String
  port : Nat
  host : String
  deriving DecidableEq

/-- Source: the value exported by `db/config.js`, for a value of
`process.env.NODE_ENV` (`none` when the variable is unset) and the handle
constructor `pgp`. `none` is `undefined`. -/
def db {H : Type} (pgp : DbParams → H) (nodeEnv : Option String) : Option H :=
  if nodeEnv = some "development" || (nodeEnv = none || nodeEnv = some "") then
    some (pgp { database := "auth_test", port := 5432, host := "localhost" })
  else if nodeEnv = some "production" then
    some (pgp { database := "auth_test", port := 5432, host := "localhost" })
  else
    none

/-! ## Observations on a log -/

/-- The calls that send a response: `res.redirect`, `res.render`, `res.json`. -/
def sends (l : List Event) : List Event :=
  l.filter fun e =>
    match e with
    | .redirect _ => true
    | .render _ _ => true
    | .json _ => true
    | _ => false

/-- The calls that mutate the quote store. -/
def quoteMutations (l : List Event) : List Event :=
  l.filter fun e =>
    match e with
    | .quoteCreate _ => true
    | .quoteUpdate _ _ => true
    | .quoteDestroy _ => true
    | _ => false

/-- The calls of `next`. -/
def nextCalls (l : List Event) : List Event :=
  l.filter fun e =>
    match e with
    | .next _ => true
    | _ => false

/-! ## Sample inputs -/

/-- A request body carrying a quote and a registration. -/
def sampleBody : String → JsVal := fun k =>
  if k = "content" then .str "Test"
  else if k = "author" then .str "Ada"
  else if k = "genre_id" then .num 1
  else if k = "username" then .str "ada"
  else if k = "first_name" then .str "Ada"
  else if k = "last_name" then .str "Lovelace"
  else if k = "email" then .str "ada@example.org"
  else if k = "password" then .str "secret"
  else .undefined

/-- A request without a user attached. -/
def anonymousRequest : Ctx :=
  { user := .undefined, body := sampleBody, paramsId := .str "7", entropy := 0, log := [],
    sent := false, thrown := none }

/-- A request with a user attached. -/
def memberRequest : Ctx :=
  { user := .obj [("id", .num 1), ("username", .str "ada")], body := sampleBody,
    paramsId := .str "7", entropy := 0, log := [], sent := false, thrown := none }

/-- A world whose stores resolve and whose login reports no error. -/
def resolvingWorld : World :=
  { genSaltSync := fun n => ("salt.", n + 1)
    hashSync := fun v s =>
      match v with
      | .str p => .ok (s ++ p)
      | _ => .error (.str "Illegal arguments")
    quoteFindAll := .resolved (.obj [])
    quoteFindById := fun _ => .resolved .undefined
    quoteCreate := fun _ => .resolved (.num 1)
    quoteUpdate := fun _ _ => .resolved .null
    quoteDestroy := fun _ => .resolved .undefined
    userCreate := fun u => .resolved (.obj [("id", .num 1), ("username", u.username)])
    login := fun _ => .invoked .undefined }

/-- A world whose stores reject and whose login reports an error. -/
def rejectingWorld : World :=
  { resolvingWorld with
    quoteFindAll := .rejected (.str "down")
    quoteFindById := fun _ => .rejected (.str "down")
    quoteCreate := fun _ => .rejected (.str "down")
    quoteUpdate := fun _ _ => .rejected (.str "down")
    quoteDestroy := fun _ => .rejected (.str "down")
    userCreate := fun _ => .rejected (.str "duplicate")
    login := fun _ => .invoked (.str "session") }

/-- A world whose stores resolve and whose login reports an error. -/
def loginFailingWorld : World :=
  { resolvingWorld with login := fun _ => .invoked (.str "session") }

/-- A continuation that does nothing. -/
def noNext : Next := fun _ c => c

/-! ## Shared lemmas -/

/-- On a response not yet sent, the session gate `loginRequired` calls `next` for
every request. -/
theorem loginRequired_continues (W : World) (next : Next) (c : Ctx) (hs : c.sent = false) :
    loginRequired W next c =
      next none
        (if truthy c.user then c
          else { emit (.redirect "/auth/login") c with sent := true }) := by
  cases h : truthy c.user <;>
    simp [loginRequired, resRedirect, resSend, Run.andThen, h, hs]

/-- On a response not yet sent, the session gate `loginRedirect` calls `next` for
every request. -/
theorem loginRedirect_continues (W : World) (next : Next) (c : Ctx) (hs : c.sent = false) :
    loginRedirect W next c =
      next none
        (if truthy c.user then { emit (.redirect "/user") c with sent := true }
          else c) := by
  cases h : truthy c.user <;>
    simp [loginRedirect, resRedirect, resSend, Run.andThen, h, hs]

/-- A record reaches the user store exactly once when `createNewUser` returns, and
the user attached to the request is untouched. -/
theorem createNewUser_ok (W : World) (c c1 : Ctx) (p : Settled)
    (h : createNewUser W c = .ok (p, c1)) :
    (∃ u, c1.log = c.log ++ [.userCreate u]) ∧ c1.user = c.user := by
  cases hh : W.hashSync (c.body "password") (W.genSaltSync c.entropy).1 with
  | error e => simp [createNewUser, hh] at h
  | ok hash =>
    simp only [createNewUser, hh, Except.ok.injEq, Prod.mk.injEq] at h
    obtain ⟨_, h2⟩ := h
    subst h2
    exact ⟨⟨_, rfl⟩, rfl⟩

/-- When a response was already sent and the store resolves, the redirect of
`controller.create` throws inside `.then`, and the `.catch` callback then sets
status 400 and calls `res.json` with the thrown error. -/
theorem controller_create_after_sent (W : World) (next : Next) (c : Ctx) (v : JsVal)
    (hs : c.sent = true)
    (h : W.quoteCreate ⟨c.body "content", c.body "author", c.body "genre_id"⟩ = .resolved v) :
    (controller.create W next c).log =
      c.log ++ [.quoteCreate ⟨c.body "content", c.body "author", c.body "genre_id"⟩,
        .redirect "/quotes", .status 400, .json headersSentError] := by
  simp [controller.create, controller.onError, thenCatch, resRedirect, resJson, resSend,
    resStatus, Run.finish, emit, h, hs]

/-- For a request with a user attached and no response sent, the chain registered
for POST /quotes enters `controller.create` with the response still unsent: the
calls are `next`, the store call and one redirect to /quotes. -/
theorem authenticated_post_creates (W : World) (c : Ctx) (v : JsVal)
    (hu : truthy c.user = true) (hs : c.sent = false)
    (h : W.quoteCreate ⟨c.body "content", c.body "author", c.body "genre_id"⟩ = .resolved v) :
    (dispatch W quoteRoutes.postQuote c).log =
      c.log ++ [.next none,
        .quoteCreate ⟨c.body "content", c.body "author", c.body "genre_id"⟩,
        .redirect "/quotes"] := by
  simp [dispatch, quoteRoutes.postQuote, authHelpers.loginRequired, controller.create,
    thenCatch, resRedirect, resSend, emit, h, hs, hu]

/-! ## The session gates (C1, C2, C3) -/

/-- C1: for every request without a user attached, the chains registered for
POST /quotes, PUT /quotes/:id and DELETE /quotes/:id make one call, the redirect
to /auth/login of the gate; `next` is not called, the controller does not run, and
the quote store's create, update and destroy operations are not invoked. -/
theorem unauthenticated_mutation_blocked (W : World) (c : Ctx)
    (h : truthy c.user = false) :
    ((dispatch W quoteRoutes.postQuote c).log = c.log ++ [.redirect "/auth/login"]
      ∧ quoteMutations (dispatch W quoteRoutes.postQuote c).log = quoteMutations c.log)
    ∧ ((dispatch W quoteRoutes.putQuote c).log = c.log ++ [.redirect "/auth/login"]
      ∧ quoteMutations (dispatch W quoteRoutes.putQuote c).log = quoteMutations c.log)
    ∧ ((dispatch W quoteRoutes.deleteQuote c).log = c.log ++ [.redirect "/auth/login"]
      ∧ quoteMutations (dispatch W quoteRoutes.deleteQuote c).log = quoteMutations c.log) := by
  refine ⟨?_, ?_, ?_⟩ <;> cases hs : c.sent <;>
    simp [dispatch, quoteRoutes.postQuote, quoteRoutes.putQuote, quoteRoutes.deleteQuote,
      authHelpers.loginRequired, resRedirect, resSend, Run.finish, emit, quoteMutations,
      h, hs]

/-- Witness of C1: the three mutating routes on the sample request without a
user, against a store that would resolve. -/
theorem unauthenticated_mutation_blocked_witness :
    truthy anonymousRequest.user = false
    ∧ (dispatch resolvingWorld quoteRoutes.postQuote anonymousRequest).log =
        [.redirect "/auth/login"]
    ∧ (dispatch resolvingWorld quoteRoutes.putQuote anonymousRequest).log =
        [.redirect "/auth/login"]
    ∧ (dispatch resolvingWorld quoteRoutes.deleteQuote anonymousRequest).log =
        [.redirect "/auth/login"] :=
  have h := unauthenticated_mutation_blocked resolvingWorld anonymousRequest rfl
  ⟨rfl, h.1.1, h.2.1.1, h.2.2.1⟩

/-- C2, evaluated on the code: for a request without a user attached,
`loginRequired` redirects to /auth/login and then calls `next`; with this gate
before the add-form handler, the add form is rendered after the redirect. -/
theorem unauthenticated_add_form_rendered :
    (dispatch resolvingWorld [loginRequired, quoteRoutes.addForm] anonymousRequest).log =
        [.redirect "/auth/login", .next none,
         .render "quotes/quotes-add" [("documentTitle", .str "Adaquote!")]]
    ∧ nextCalls (dispatch resolvingWorld [loginRequired] anonymousRequest).log = [.next none]
    ∧ truthy anonymousRequest.user = false := by
  refine ⟨rfl, rfl, rfl⟩

/-- C3, evaluated on the code: for a request with a user attached, `loginRedirect`
redirects to /user and then calls `next`; on GET /auth/login and GET /auth/register
the form is rendered after the redirect. -/
theorem authenticated_login_form_rendered :
    (dispatch resolvingWorld authRouter.getLogin memberRequest).log =
        [.redirect "/user", .next none, .render "auth/login" []]
    ∧ (dispatch resolvingWorld authRouter.getRegister memberRequest).log =
        [.redirect "/user", .next none, .render "auth/register" []]
    ∧ nextCalls (dispatch resolvingWorld [loginRedirect] memberRequest).log = [.next none]
    ∧ truthy memberRequest.user = true := by
  refine ⟨rfl, rfl, rfl, rfl⟩

/-! ## Registration (C4, C5, C9) -/

/-- C4: when hashing `body.password` with the salt just drawn from the generator
yields `hash`, `createNewUser` hands the user store exactly one record: its
password field is `hash`, and its username, first_name, last_name and email
fields are those of the request body; the generator has advanced by one draw.
The record handed over never carries `body.password` in its password field
unless the hash function returned its own input. When hashing throws, the
exception propagates and nothing is handed to the store. -/
theorem createNewUser_record (W : World) (c : Ctx) :
    (∀ hash, W.hashSync (c.body "password") (W.genSaltSync c.entropy).1 = .ok hash →
      createNewUser W c =
        .ok (W.userCreate
              { username := c.body "username", first_name := c.body "first_name",
                last_name := c.body "last_name", email := c.body "email",
                password := .str hash },
            { c with
              entropy := (W.genSaltSync c.entropy).2
              log := c.log ++ [.userCreate
                { username := c.body "username", first_name := c.body "first_name",
                  last_name := c.body "last_name", email := c.body "email",
                  password := .str hash }] }))
    ∧ (∀ hash p c1 u,
        W.hashSync (c.body "password") (W.genSaltSync c.entropy).1 = .ok hash →
        JsVal.str hash ≠ c.body "password" →
        createNewUser W c = .ok (p, c1) → c1.log = c.log ++ [.userCreate u] →
        u.password ≠ c.body "password")
    ∧ (∀ e, W.hashSync (c.body "password") (W.genSaltSync c.entropy).1 = .error e →
        createNewUser W c = .error e) := by
  refine ⟨?_, ?_, ?_⟩
  · intro hash h
    simp [createNewUser, h, emit]
  · intro hash p c1 u h hne hc hl
    simp only [createNewUser, h, emit, Except.ok.injEq, Prod.mk.injEq] at hc
    obtain ⟨_, h2⟩ := hc
    subst h2
    simp only [List.append_cancel_left_eq, List.cons.injEq, Event.userCreate.injEq,
      and_true] at hl
    subst hl
    exact hne
  · intro e h
    simp [createNewUser, h]

/-- Witness of C4 on the sample registration: the stored password is the hash
"salt.secret", not the submitted "secret". -/
theorem createNewUser_record_witness :
    createNewUser resolvingWorld anonymousRequest =
        .ok (.resolved (.obj [("id", .num 1), ("username", .str "ada")]),
          { anonymousRequest with
            entropy := 1
            log := [.userCreate ⟨.str "ada", .str "Ada", .str "Lovelace",
              .str "ada@example.org", .str "salt.secret"⟩] })
    ∧ JsVal.str "salt.secret" ≠ sampleBody "password" :=
  have h := createNewUser_record resolvingWorld anonymousRequest
  ⟨h.1 "salt.secret" rfl,
   h.2.1 "salt.secret" _ _
     ⟨.str "ada", .str "Ada", .str "Lovelace", .str "ada@example.org", .str "salt.secret"⟩
     rfl (by simp [anonymousRequest, sampleBody]) (h.1 "salt.secret" rfl) rfl⟩

/-- C5: when the user store's create operation rejects, POST /auth/register
responds with status 500 and the JSON body `status: 'error'`; `req.login` is not
called, nothing is redirected, `next` is not called, and the user attached to the
request (hence the session state) is unchanged. -/
theorem register_store_failure (W : World) (c c1 : Ctx) (e : JsVal)
    (h : createNewUser W c = .ok (.rejected e, c1)) :
    (dispatch W [authRouter.postRegister] c).log =
        c1.log ++ [.status 500, .json (.obj [("status", .str "error")])]
    ∧ (∃ u, c1.log = c.log ++ [.userCreate u])
    ∧ (dispatch W [authRouter.postRegister] c).user = c.user
    ∧ sessionState (dispatch W [authRouter.postRegister] c) = sessionState c := by
  have hc1 := createNewUser_ok W c c1 _ h
  refine ⟨?_, hc1.1, ?_, ?_⟩ <;> cases hs : c1.sent <;>
    simp [dispatch, authRouter.postRegister, h, thenCatch, resJson, resSend, resStatus,
      Run.finish, emit, hc1.2, sessionState, hs]

/-- Witness of C5: a registration rejected by the store as a duplicate. -/
theorem register_store_failure_witness :
    (dispatch rejectingWorld [authRouter.postRegister] memberRequest).log =
        [.userCreate ⟨.str "ada", .str "Ada", .str "Lovelace", .str "ada@example.org",
            .str "salt.secret"⟩,
          .status 500, .json (.obj [("status", .str "error")])]
    ∧ sessionState (dispatch rejectingWorld [authRouter.postRegister] memberRequest)
        = sessionState memberRequest :=
  have h := register_store_failure rejectingWorld memberRequest
    { memberRequest with
      entropy := 1
      log := [.userCreate ⟨.str "ada", .str "Ada", .str "Lovelace", .str "ada@example.org",
        .str "salt.secret"⟩] }
    (.str "duplicate") rfl
  ⟨h.1, h.2.2.2⟩

/-- C9: when the user store's create operation resolves with `u`, POST
/auth/register calls `req.login` with `u`; when the login reports no error the
handler redirects to /user, and when it reports an error `err` the handler calls
`next(err)` and redirects nowhere. In both cases no status 500 and no JSON body
is sent. Whatever the login does, the call of `req.login` with `u` is the first
call after the store call. -/
theorem register_store_success (W : World) (c c1 : Ctx) (u : JsVal)
    (h : createNewUser W c = .ok (.resolved u, c1)) :
    (∀ err, W.login u = .invoked err → truthy err = false →
      (dispatch W [authRouter.postRegister] c).log =
        c1.log ++ [.login u, .redirect "/user"])
    ∧ (∀ err, W.login u = .invoked err → truthy err = true →
      (dispatch W [authRouter.postRegister] c).log =
        c1.log ++ [.login u, .next (some err)])
    ∧ (∃ r, c1.log = c.log ++ [.userCreate r])
    ∧ (∃ rest, (dispatch W [authRouter.postRegister] c).log = c1.log ++ .login u :: rest) := by
  have hok : ∀ err, W.login u = .invoked err → truthy err = false →
      (dispatch W [authRouter.postRegister] c).log =
        c1.log ++ [.login u, .redirect "/user"] := by
    intro err hl ht
    cases hs : c1.sent <;>
      simp [dispatch, authRouter.postRegister, h, thenCatch, reqLogin, hl, ht, resRedirect,
        resSend, Run.finish, emit, hs]
  have herr : ∀ err, W.login u = .invoked err → truthy err = true →
      (dispatch W [authRouter.postRegister] c).log =
        c1.log ++ [.login u, .next (some err)] := by
    intro err hl ht
    simp [dispatch, authRouter.postRegister, h, thenCatch, reqLogin, hl, ht, Run.finish,
      emit]
  refine ⟨hok, herr, (createNewUser_ok W c c1 _ h).1, ?_⟩
  cases hl : W.login u with
  | never =>
    exact ⟨[], by simp [dispatch, authRouter.postRegister, h, thenCatch, reqLogin, hl, emit]⟩
  | invoked err =>
    cases ht : truthy err with
    | false => exact ⟨[.redirect "/user"], hok err hl ht⟩
    | true => exact ⟨[.next (some err)], herr err hl ht⟩

/-- Witness of C9: a registration accepted by the store, once with a login that
reports no error and once with a login that reports the error "session". -/
theorem register_store_success_witness :
    (dispatch resolvingWorld [authRouter.postRegister] anonymousRequest).log =
        [.userCreate ⟨.str "ada", .str "Ada", .str "Lovelace", .str "ada@example.org",
            .str "salt.secret"⟩,
          .login (.obj [("id", .num 1), ("username", .str "ada")]), .redirect "/user"]
    ∧ (dispatch loginFailingWorld [authRouter.postRegister] anonymousRequest).log =
        [.userCreate ⟨.str "ada", .str "Ada", .str "Lovelace", .str "ada@example.org",
            .str "salt.secret"⟩,
          .login (.obj [("id", .num 1), ("username", .str "ada")]),
          .next (some (.str "session"))] :=
  ⟨(register_store_success resolvingWorld anonymousRequest
      { anonymousRequest with
        entropy := 1
        log := [.userCreate ⟨.str "ada", .str "Ada", .str "Lovelace", .str "ada@example.org",
          .str "salt.secret"⟩] }
      (.obj [("id", .num 1), ("username", .str "ada")]) rfl).1 .undefined rfl rfl,
   (register_store_success loginFailingWorld anonymousRequest
      { anonymousRequest with
        entropy := 1
        log := [.userCreate ⟨.str "ada", .str "Ada", .str "Lovelace", .str "ada@example.org",
          .str "salt.secret"⟩] }
      (.obj [("id", .num 1), ("username", .str "ada")]) rfl).2.1 (.str "session") rfl rfl⟩

/-! ## The quote controller (C6, C7) -/

/-- C6: for each of the six controller operations, when its store call rejects
with `e` the handler makes the store call, sets status 400 and sends `e` itself as
the JSON body, and does nothing else: no render, no redirect. -/
theorem controller_store_rejection (W : World) (next : Next) (c : Ctx) (e : JsVal) :
    (W.quoteFindAll = .rejected e →
      (controller.index W next c).log = c.log ++ [.quoteFindAll, .status 400, .json e])
    ∧ (W.quoteFindById c.paramsId = .rejected e →
      (controller.show W next c).log =
        c.log ++ [.quoteFindById c.paramsId, .status 400, .json e])
    ∧ (W.quoteCreate ⟨c.body "content", c.body "author", c.body "genre_id"⟩ = .rejected e →
      (controller.create W next c).log =
        c.log ++ [.quoteCreate ⟨c.body "content", c.body "author", c.body "genre_id"⟩,
          .status 400, .json e])
    ∧ (W.quoteFindById c.paramsId = .rejected e →
      (controller.edit W next c).log =
        c.log ++ [.quoteFindById c.paramsId, .status 400, .json e])
    ∧ (W.quoteUpdate ⟨c.body "content", c.body "author", c.body "genre_id"⟩ c.paramsId
        = .rejected e →
      (controller.update W next c).log =
        c.log ++ [.quoteUpdate ⟨c.body "content", c.body "author", c.body "genre_id"⟩
          c.paramsId, .status 400, .json e])
    ∧ (W.quoteDestroy c.paramsId = .rejected e →
      (controller.destroy W next c).log =
        c.log ++ [.quoteDestroy c.paramsId, .status 400, .json e]) := by
  refine ⟨?_, ?_, ?_, ?_, ?_, ?_⟩ <;> intro h <;> cases hs : c.sent <;>
    simp [controller.index, controller.show, controller.create, controller.edit,
      controller.update, controller.destroy, controller.onError, thenCatch, resJson,
      resSend, resStatus, Run.finish, emit, h, hs]

/-- Witness of C6: the six operations against a store that rejects with "down". -/
theorem controller_store_rejection_witness :
    (controller.index rejectingWorld noNext anonymousRequest).log =
        [.quoteFindAll, .status 400, .json (.str "down")]
    ∧ (controller.show rejectingWorld noNext anonymousRequest).log =
        [.quoteFindById (.str "7"), .status 400, .json (.str "down")]
    ∧ (controller.create rejectingWorld noNext anonymousRequest).log =
        [.quoteCreate ⟨.str "Test", .str "Ada", .num 1⟩, .status 400, .json (.str "down")]
    ∧ (controller.edit rejectingWorld noNext anonymousRequest).log =
        [.quoteFindById (.str "7"), .status 400, .json (.str "down")]
    ∧ (controller.update rejectingWorld noNext anonymousRequest).log =
        [.quoteUpdate ⟨.str "Test", .str "Ada", .num 1⟩ (.str "7"), .status 400,
          .json (.str "down")]
    ∧ (controller.destroy rejectingWorld noNext anonymousRequest).log =
        [.quoteDestroy (.str "7"), .status 400, .json (.str "down")] :=
  have h := controller_store_rejection rejectingWorld noNext anonymousRequest (.str "down")
  ⟨h.1 rfl, h.2.1 rfl, h.2.2.1 rfl, h.2.2.2.1 rfl, h.2.2.2.2.1 rfl, h.2.2.2.2.2 rfl⟩

/-- C7: when the store call of `controller.create`, `controller.update` or
`controller.destroy` resolves, with whatever value `v`, the handler, entered
before any response was sent, makes the store call and then sends one response, a
redirect to /quotes, which does not throw. The store receives the content, author
and genre_id fields of the request body (create, update) and the id of the route
parameter (update, destroy). -/
theorem controller_store_success (W : World) (next : Next) (c : Ctx) (v : JsVal)
    (hs : c.sent = false) :
    (W.quoteCreate ⟨c.body "content", c.body "author", c.body "genre_id"⟩ = .resolved v →
      (controller.create W next c).log =
          c.log ++ [.quoteCreate ⟨c.body "content", c.body "author", c.body "genre_id"⟩,
            .redirect "/quotes"]
      ∧ sends (controller.create W next c).log = sends c.log ++ [.redirect "/quotes"]
      ∧ (controller.create W next c).thrown = c.thrown)
    ∧ (W.quoteUpdate ⟨c.body "content", c.body "author", c.body "genre_id"⟩ c.paramsId
        = .resolved v →
      (controller.update W next c).log =
          c.log ++ [.quoteUpdate ⟨c.body "content", c.body "author", c.body "genre_id"⟩
            c.paramsId, .redirect "/quotes"]
      ∧ sends (controller.update W next c).log = sends c.log ++ [.redirect "/quotes"]
      ∧ (controller.update W next c).thrown = c.thrown)
    ∧ (W.quoteDestroy c.paramsId = .resolved v →
      (controller.destroy W next c).log =
          c.log ++ [.quoteDestroy c.paramsId, .redirect "/quotes"]
      ∧ sends (controller.destroy W next c).log = sends c.log ++ [.redirect "/quotes"]
      ∧ (controller.destroy W next c).thrown = c.thrown) := by
  refine ⟨?_, ?_, ?_⟩ <;> intro h
  · simp [controller.create, thenCatch, resRedirect, resSend, emit, h, hs, sends]
  · simp [controller.update, thenCatch, resRedirect, resSend, emit, h, hs, sends]
  · simp [controller.destroy, thenCatch, resRedirect, resSend, emit, h, hs, sends]

/-- Witness of C7: the three operations on a request whose response is not yet
sent, against a store that resolves with three different values. -/
theorem controller_store_success_witness :
    anonymousRequest.sent = false
    ∧ ((controller.create resolvingWorld noNext anonymousRequest).log =
        [.quoteCreate ⟨.str "Test", .str "Ada", .num 1⟩, .redirect "/quotes"]
      ∧ sends (controller.create resolvingWorld noNext anonymousRequest).log =
        [.redirect "/quotes"]
      ∧ (controller.create resolvingWorld noNext anonymousRequest).thrown = none)
    ∧ ((controller.update resolvingWorld noNext anonymousRequest).log =
        [.quoteUpdate ⟨.str "Test", .str "Ada", .num 1⟩ (.str "7"), .redirect "/quotes"]
      ∧ sends (controller.update resolvingWorld noNext anonymousRequest).log =
        [.redirect "/quotes"]
      ∧ (controller.update resolvingWorld noNext anonymousRequest).thrown = none)
    ∧ ((controller.destroy resolvingWorld noNext anonymousRequest).log =
        [.quoteDestroy (.str "7"), .redirect "/quotes"]
      ∧ sends (controller.destroy resolvingWorld noNext anonymousRequest).log =
        [.redirect "/quotes"]
      ∧ (controller.destroy resolvingWorld noNext anonymousRequest).thrown = none) :=
  ⟨rfl,
   (controller_store_success resolvingWorld noNext anonymousRequest (.num 1) rfl).1 rfl,
   (controller_store_success resolvingWorld noNext anonymousRequest .null rfl).2.1 rfl,
   (controller_store_success resolvingWorld noNext anonymousRequest .undefined rfl).2.2 rfl⟩

/-! ## Logout (C8) -/

/-- C8: for every request, with or without a user attached, GET /auth/logout calls
`req.logout` once and then redirects to /; with `req.logout` clearing the session
user, the session state afterwards is Anonymous. -/
theorem logout_always_anonymous (W : World) (next : Next) (c : Ctx) :
    (authRouter.getLogout W next c).log = c.log ++ [.logout, .redirect "/"]
    ∧ sessionState (authRouter.getLogout W next c) = .Anonymous := by
  constructor <;> cases hs : c.sent <;>
    simp [authRouter.getLogout, reqLogout, resRedirect, resSend, Run.finish, emit,
      sessionState, truthy, hs]

/-! ## Store configuration (C10) -/

/-- C10: the exported handle is defined exactly when NODE_ENV is unset, empty,
'development' or 'production'; whenever defined it is built from database
'auth_test', port 5432, host 'localhost'; for every other value, 'test' among
them, it is undefined. -/
theorem db_defined_iff {H : Type} (pgp : DbParams → H) (nodeEnv : Option String) :
    ((db pgp nodeEnv).isSome = true ↔
      (nodeEnv = none ∨ nodeEnv = some "" ∨ nodeEnv = some "development"
        ∨ nodeEnv = some "production"))
    ∧ db pgp nodeEnv =
        (if nodeEnv = none ∨ nodeEnv = some "" ∨ nodeEnv = some "development"
            ∨ nodeEnv = some "production"
          then some (pgp { database := "auth_test", port := 5432, host := "localhost" })
          else none)
    ∧ db pgp (some "test") = none := by
  refine ⟨?_, ?_, ?_⟩
  · unfold db
    by_cases h1 : nodeEnv = some "development" <;> by_cases h2 : nodeEnv = none <;>
      by_cases h3 : nodeEnv = some "" <;> by_cases h4 : nodeEnv = some "production" <;>
      simp [h1, h2, h3, h4]
  · unfold db
    by_cases h1 : nodeEnv = some "development" <;> by_cases h2 : nodeEnv = none <;>
      by_cases h3 : nodeEnv = some "" <;> by_cases h4 : nodeEnv = some "production" <;>
      simp [h1, h2, h3, h4]
  · simp [db]

end Adaquote
